import Mathlib

/-!
Shallow embedding of `src/sample-backend/main.py` (a FastAPI todo service):
the module-level mutable state (`todos_db`, `next_id`), the two guarded seed
blocks, and the three route handlers `get_todos`, `get_todo`, `create_todo`.
Handlers are modelled as explicit state-passing functions
`ServiceState → args → result × ServiceState`.
-/

/-- One stored record, mirroring the pydantic model `Todo`
(`id : int`, `title : str`, `completed : bool`, lines 14-17). -/
structure Todo where
  id : Int
  title : String
  completed : Bool
  deriving DecidableEq

/-- Request body for create, mirroring pydantic `CreateTodo`
(`title : str`, `completed : Optional[bool] = False`, lines 20-22).
`none` models Python `None`; an absent field takes the pydantic default
`False`, which `parseCreateTodo` applies. -/
structure CreateTodo where
  title : String
  completed : Option Bool
  deriving DecidableEq

/-- The whole mutable state of the service: the module-level globals
`todos_db` (line 10) and `next_id` (line 11). -/
structure ServiceState where
  todos_db : List Todo
  next_id : Int
  deriving DecidableEq

/-- FastAPI `HTTPException` as raised on line 52, carrying a status code
and a detail message. -/
structure HTTPException where
  status_code : Nat
  detail : String
  deriving DecidableEq

/-- Python expression `x or False` for `x : Optional[bool]` (line 59):
`None or False` is `False`, `False or False` is `False`, `True or False`
is `True`. -/
def pyOrFalse : Option Bool → Bool
  | some true => true
  | _ => false

/-- The state right after lines 10-11 execute: empty list, counter 1. -/
def initialState : ServiceState := ⟨[], 1⟩

/-- One guarded seed block (`if not todos_db: ...` followed by two appends,
each incrementing `next_id`; lines 35-39, repeated verbatim at lines 67-71). -/
def seedBlock (s : ServiceState) : ServiceState :=
  if s.todos_db.isEmpty then
    { todos_db := s.todos_db ++
        [⟨s.next_id, "Learn FastAPI", false⟩,
         ⟨s.next_id + 1, "Build an API tester", true⟩],
      next_id := s.next_id + 2 }
  else s

/-- State after the module top level has run: both seed blocks execute in
order (nothing between them mutates the state). -/
def startupState : ServiceState := seedBlock (seedBlock initialState)

/-- Startup state of the variant program containing only the first seed
block (lines 35-39). -/
def startupStateSingleSeed : ServiceState := seedBlock initialState

/-- Handler `get_todos` (lines 42-44): returns `todos_db` unchanged. -/
def get_todos (s : ServiceState) : List Todo × ServiceState :=
  (s.todos_db, s)

/-- The linear scan performed by `get_todo`'s for-loop (lines 49-51):
first record whose `id` equals the argument, if any. -/
def findTodo : List Todo → Int → Option Todo
  | [], _ => none
  | t :: ts, i => if t.id = i then some t else findTodo ts i

/-- Handler `get_todo` (lines 47-52): scan for the id; on a miss raise
`HTTPException(status_code=404, detail="Todo not found")`. -/
def get_todo (s : ServiceState) (todo_id : Int) :
    Except HTTPException Todo × ServiceState :=
  match findTodo s.todos_db todo_id with
  | some t => (Except.ok t, s)
  | none => (Except.error ⟨404, "Todo not found"⟩, s)

/-- Handler `create_todo` (lines 55-63): build the record with
`id = next_id`, the given title and `completed or False`; append it;
increment the counter; return the record. -/
def create_todo (s : ServiceState) (tc : CreateTodo) : Todo × ServiceState :=
  let new_todo : Todo := ⟨s.next_id, tc.title, pyOrFalse tc.completed⟩
  (new_todo, ⟨s.todos_db ++ [new_todo], s.next_id + 1⟩)

/-- Pydantic parsing of a request body for `CreateTodo`: the outer
`Option` marks whether the `completed` field is present in the JSON at
all; an absent field takes the declared default `False` (line 22). -/
def parseCreateTodo (title : String) (completedField : Option (Option Bool)) :
    CreateTodo :=
  ⟨title, completedField.getD (some false)⟩

/-- One API call: the three operations the service answers. -/
inductive Op where
  | list : Op
  | get : Int → Op
  | create : CreateTodo → Op

/-- State transition of a single API call. -/
def step (s : ServiceState) : Op → ServiceState
  | Op.list => (get_todos s).2
  | Op.get i => (get_todo s i).2
  | Op.create tc => (create_todo s tc).2

/-- State after a sequence of API calls. -/
def run (s : ServiceState) (ops : List Op) : ServiceState :=
  ops.foldl step s

/-- The state invariant: the counter is positive, stored ids are strictly
increasing in storage order, and every stored id is positive and below the
counter. -/
def ServiceInv (s : ServiceState) : Prop :=
  0 < s.next_id ∧
  List.Pairwise (fun a b : Todo => a.id < b.id) s.todos_db ∧
  ∀ t ∈ s.todos_db, 0 < t.id ∧ t.id < s.next_id

lemma inv_startup : ServiceInv startupState := by
  unfold ServiceInv
  decide

lemma get_todo_snd (s : ServiceState) (i : Int) : (get_todo s i).2 = s := by
  unfold get_todo
  cases findTodo s.todos_db i <;> rfl

lemma create_todo_snd (s : ServiceState) (tc : CreateTodo) :
    (create_todo s tc).2 =
      ⟨s.todos_db ++ [⟨s.next_id, tc.title, pyOrFalse tc.completed⟩],
       s.next_id + 1⟩ := rfl

lemma inv_step {s : ServiceState} (h : ServiceInv s) (op : Op) : ServiceInv (step s op) := by
  obtain ⟨hpos, hsorted, hbound⟩ := h
  cases op with
  | list => exact ⟨hpos, hsorted, hbound⟩
  | get i => rw [step, get_todo_snd]; exact ⟨hpos, hsorted, hbound⟩
  | create tc =>
    rw [step, create_todo_snd]
    refine ⟨?_, ?_, ?_⟩
    · show 0 < s.next_id + 1
      omega
    · show List.Pairwise (fun a b : Todo => a.id < b.id)
        (s.todos_db ++ [⟨s.next_id, tc.title, pyOrFalse tc.completed⟩])
      rw [List.pairwise_append]
      refine ⟨hsorted, List.pairwise_singleton _ _, ?_⟩
      intro a ha b hb
      rw [List.mem_singleton] at hb
      subst hb
      exact (hbound a ha).2
    · intro t ht
      show 0 < t.id ∧ t.id < s.next_id + 1
      have ht2 : t ∈ s.todos_db ++
          [(⟨s.next_id, tc.title, pyOrFalse tc.completed⟩ : Todo)] := ht
      rw [List.mem_append, List.mem_singleton] at ht2
      rcases ht2 with h1 | h1
      · have hb := hbound t h1
        exact ⟨hb.1, by omega⟩
      · subst h1
        exact ⟨hpos, by show s.next_id < s.next_id + 1; omega⟩

lemma inv_run {s : ServiceState} (h : ServiceInv s) (ops : List Op) :
    ServiceInv (run s ops) := by
  induction ops generalizing s with
  | nil => exact h
  | cons op ops ih => exact ih (inv_step h op)

lemma findTodo_some {l : List Todo} {i : Int} {t : Todo}
    (h : findTodo l i = some t) : t ∈ l ∧ t.id = i := by
  induction l with
  | nil => simp [findTodo] at h
  | cons a as ih =>
    rw [findTodo] at h
    by_cases ha : a.id = i
    · rw [if_pos ha] at h
      obtain rfl := Option.some.inj h
      exact ⟨List.mem_cons_self a as, ha⟩
    · rw [if_neg ha] at h
      have hr := ih h
      exact ⟨List.mem_cons_of_mem a hr.1, hr.2⟩

lemma findTodo_none_iff {l : List Todo} {i : Int} :
    findTodo l i = none ↔ ∀ t ∈ l, t.id ≠ i := by
  induction l with
  | nil => simp [findTodo]
  | cons a as ih =>
    rw [findTodo]
    by_cases ha : a.id = i
    · rw [if_pos ha]
      simp only [List.mem_cons]
      constructor
      · intro h; exact absurd h (by simp)
      · intro h; exact absurd ha (h a (Or.inl rfl))
    · rw [if_neg ha, ih]
      simp only [List.mem_cons]
      constructor
      · rintro h t (rfl | ht)
        · exact ha
        · exact h t ht
      · intro h t ht
        exact h t (Or.inr ht)

lemma findTodo_exists {l : List Todo} {i : Int}
    (h : ∃ t ∈ l, t.id = i) :
    ∃ t, findTodo l i = some t ∧ t ∈ l ∧ t.id = i := by
  rcases hf : findTodo l i with _ | t
  · obtain ⟨t, ht, hid⟩ := h
    exact absurd hid (findTodo_none_iff.1 hf t ht)
  · exact ⟨t, rfl, findTodo_some hf⟩

lemma get_todo_eq_of_none {s : ServiceState} {i : Int}
    (h : findTodo s.todos_db i = none) :
    get_todo s i = (Except.error ⟨404, "Todo not found"⟩, s) := by
  unfold get_todo
  rw [h]

lemma get_todo_eq_of_some {s : ServiceState} {i : Int} {t : Todo}
    (h : findTodo s.todos_db i = some t) :
    get_todo s i = (Except.ok t, s) := by
  unfold get_todo
  rw [h]

lemma run_replicate_fixed (op : Op) (hop : ∀ s : ServiceState, step s op = s)
    (n : Nat) (s : ServiceState) : run s (List.replicate n op) = s := by
  induction n generalizing s with
  | zero => rfl
  | succ n ih =>
    rw [List.replicate_succ]
    show run (step s op) (List.replicate n op) = s
    rw [hop]
    exact ih s

/-- Claim C1: at every observation point reachable from the seeded startup
state by any sequence of list/get/create operations, the stored `id` values
are pairwise distinct, and every stored `id` is a positive integer strictly
below the current `next_id` counter. -/
theorem stored_ids_unique_and_bounded (ops : List Op) :
    ((run startupState ops).todos_db.map Todo.id).Nodup ∧
    ∀ t ∈ (run startupState ops).todos_db,
      0 < t.id ∧ t.id < (run startupState ops).next_id := by
  have h := inv_run inv_startup ops
  refine ⟨?_, h.2.2⟩
  have hp : List.Pairwise (· ≠ ·) ((run startupState ops).todos_db.map Todo.id) := by
    rw [List.pairwise_map]
    exact h.2.1.imp (fun hab => ne_of_lt hab)
  exact hp

theorem stored_ids_unique_and_bounded_witness :
    ((run startupState []).todos_db.map Todo.id).Nodup ∧
    (0 < (Todo.mk 1 "Learn FastAPI" false).id ∧
      (Todo.mk 1 "Learn FastAPI" false).id < (run startupState []).next_id) :=
  ⟨(stored_ids_unique_and_bounded []).1,
   (stored_ids_unique_and_bounded []).2 ⟨1, "Learn FastAPI", false⟩ (by decide)⟩

/-- Claim C2: for every state and every create request, the created record
carries `id = next_id` at call time, the given title, and the given
(or defaulted) completed flag; it is appended at the end of the stored
sequence, and the counter grows by exactly 1. -/
theorem create_todo_spec (s : ServiceState) (tc : CreateTodo) :
    (create_todo s tc).1.id = s.next_id ∧
    (create_todo s tc).1.title = tc.title ∧
    (create_todo s tc).1.completed = tc.completed.getD false ∧
    (create_todo s tc).2.todos_db = s.todos_db ++ [(create_todo s tc).1] ∧
    (create_todo s tc).2.next_id = s.next_id + 1 := by
  refine ⟨rfl, rfl, ?_, rfl, rfl⟩
  rcases tc with ⟨title, co⟩
  rcases co with _ | b
  · rfl
  · cases b <;> rfl

/-- Claim C3: for every state and every integer id, `get_todo` answers
`Except.ok` with the record of that id exactly when some stored record
(seeded or created) has that id; when none does, it answers the 404 error
with detail "Todo not found", and that is the only error value it can
produce. -/
theorem get_todo_spec (s : ServiceState) (i : Int) :
    ((∃ t ∈ s.todos_db, t.id = i) →
      ∃ t, (get_todo s i).1 = Except.ok t ∧ t ∈ s.todos_db ∧ t.id = i) ∧
    ((∀ t ∈ s.todos_db, t.id ≠ i) →
      (get_todo s i).1 = Except.error ⟨404, "Todo not found"⟩) ∧
    (∀ t, (get_todo s i).1 = Except.ok t → t ∈ s.todos_db ∧ t.id = i) ∧
    (∀ e, (get_todo s i).1 = Except.error e → e = ⟨404, "Todo not found"⟩) := by
  rcases hf : findTodo s.todos_db i with _ | t
  · rw [get_todo_eq_of_none hf]
    refine ⟨?_, fun _ => rfl, ?_, ?_⟩
    · intro hex
      obtain ⟨t, ht, hid⟩ := hex
      exact absurd hid (findTodo_none_iff.1 hf t ht)
    · intro t ht
      exact absurd ht (by simp)
    · intro e he
      exact (Except.error.inj he).symm
  · rw [get_todo_eq_of_some hf]
    have hs := findTodo_some hf
    refine ⟨fun _ => ⟨t, rfl, hs⟩, ?_, ?_, ?_⟩
    · intro hall
      exact absurd hs.2 (hall t hs.1)
    · intro u hu
      obtain rfl := Except.ok.inj hu
      exact hs
    · intro e he
      exact absurd he (by simp)

theorem get_todo_spec_witness :
    (∃ t, (get_todo startupState 1).1 = Except.ok t ∧
      t ∈ startupState.todos_db ∧ t.id = 1) ∧
    (get_todo startupState 3).1 = Except.error ⟨404, "Todo not found"⟩ ∧
    ((get_todo startupState 2).1 = Except.ok ⟨2, "Build an API tester", true⟩ →
      (⟨2, "Build an API tester", true⟩ : Todo) ∈ startupState.todos_db ∧
      (⟨2, "Build an API tester", true⟩ : Todo).id = 2) :=
  ⟨(get_todo_spec startupState 1).1 (by decide),
   (get_todo_spec startupState 3).2.1 (by decide),
   (get_todo_spec startupState 2).2.2.1 ⟨2, "Build an API tester", true⟩⟩

/-- Claim C4: along any sequence of operations from the seeded startup
state, stored ids are strictly increasing in creation order, and any
record a further create would produce has a strictly greater id than
every stored record. -/
theorem create_ids_strictly_increasing (ops : List Op) :
    List.Pairwise (fun a b : Int => a < b)
      ((run startupState ops).todos_db.map Todo.id) ∧
    ∀ tc : CreateTodo, ∀ t ∈ (run startupState ops).todos_db,
      t.id < (create_todo (run startupState ops) tc).1.id := by
  have h := inv_run inv_startup ops
  constructor
  · rw [List.pairwise_map]
    exact h.2.1
  · intro tc t ht
    exact (h.2.2 t ht).2

theorem create_ids_strictly_increasing_witness :
    List.Pairwise (fun a b : Int => a < b)
      ((run startupState []).todos_db.map Todo.id) ∧
    (Todo.mk 2 "Build an API tester" true).id <
      (create_todo (run startupState []) ⟨"x", none⟩).1.id :=
  ⟨(create_ids_strictly_increasing []).1,
   (create_ids_strictly_increasing []).2 ⟨"x", none⟩
     ⟨2, "Build an API tester", true⟩ (by decide)⟩

/-- Claim C5: `get_todos` returns the full stored sequence as is (hence in
creation order: a create appends exactly one record at the end of what
list returned before), never fails, and leaves the state unchanged. -/
theorem get_todos_spec (s : ServiceState) (tc : CreateTodo) :
    (get_todos s).1 = s.todos_db ∧
    (get_todos s).2 = s ∧
    (get_todos (create_todo s tc).2).1 =
      (get_todos s).1 ++ [(create_todo s tc).1] :=
  ⟨rfl, rfl, rfl⟩

/-- Claim C6: immediately after startup the store holds exactly the two
seed records (ids 1 and 2, the given titles, completed false/true), the
counter equals 3, and `get_todo` on id 3 fails with the 404
"Todo not found" error. -/
theorem startup_boundary :
    startupState.todos_db =
      [⟨1, "Learn FastAPI", false⟩, ⟨2, "Build an API tester", true⟩] ∧
    startupState.next_id = 3 ∧
    (get_todo startupState 3).1 = Except.error ⟨404, "Todo not found"⟩ :=
  ⟨rfl, rfl, rfl⟩

/-- Claim C7: `get_todos` and `get_todo` leave the state unchanged (also on
a NotFound miss), so repeating either any number of times without an
intervening create returns the same result each time. -/
theorem readonly_ops_preserve_state (s : ServiceState) (i : Int) (n : Nat) :
    (get_todos s).2 = s ∧
    (get_todo s i).2 = s ∧
    run s (List.replicate n Op.list) = s ∧
    run s (List.replicate n (Op.get i)) = s ∧
    (get_todos (run s (List.replicate n Op.list))).1 = (get_todos s).1 ∧
    (get_todo (run s (List.replicate n (Op.get i))) i).1 = (get_todo s i).1 := by
  have h1 : ∀ u : ServiceState, step u Op.list = u := fun _ => rfl
  have h2 : ∀ u : ServiceState, step u (Op.get i) = u := fun u => get_todo_snd u i
  have r1 := run_replicate_fixed Op.list h1 n s
  have r2 := run_replicate_fixed (Op.get i) h2 n s
  exact ⟨rfl, get_todo_snd s i, r1, r2, by rw [r1], by rw [r2]⟩

/-- Claim C8: a create request whose `completed` field is absent from the
body takes the pydantic default `False`, so the created record has
`completed = false`, for every state and title. -/
theorem create_absent_completed_false (s : ServiceState) (title : String) :
    (create_todo s (parseCreateTodo title none)).1.completed = false := rfl

/-- Claim C9: after the first seed block the store is non-empty, so the
second seed block's guard is false and it does nothing: the startup state
of the full program equals that of a program with only the first block. -/
theorem second_seed_block_no_op :
    startupStateSingleSeed.todos_db.isEmpty = false ∧
    startupState = startupStateSingleSeed :=
  ⟨rfl, rfl⟩

/-- Claim C10: a create request whose `completed` field is explicitly
`null` (Python `None`) is coerced by `completed or False` to `false`, so
the created record's `completed` is the genuine boolean `false`. -/
theorem create_null_completed_false (s : ServiceState) (title : String) :
    (create_todo s ⟨title, none⟩).1.completed = false := rfl
